import Mathlib

/-!
Verification of the NAR-TRG nomogram calculator (`src/main_app.py`).

The Python source is a pipeline of five pure functions: NAR score,
NAR band classification, TRG band classification, composite NAR-TRG
score, and a Cox-model points/survival computation.  Python floats are
embedded as exact rationals (every constant in the source is a short
decimal); the survival formulas, which use `math.exp` and float `**`,
are embedded over the reals with `Real.exp` and `Real.rpow`.
-/

open Real

/-- Embedding of `calculate_nar`: NAR = (5*pN - 3*(cT - pT) + 12)^2 / 9.61. -/
def calculate_nar (cT pT pN : ℤ) : ℚ :=
  let numerator : ℚ := 5 * (pN : ℚ) - 3 * ((cT : ℚ) - (pT : ℚ)) + 12
  numerator ^ 2 / (961 / 100)

/-- Embedding of `classify_nar`: `< 8` low, `> 16` high, else medium. -/
def classify_nar (nar_value : ℚ) : String :=
  if nar_value < 8 then "NARlow"
  else if nar_value > 16 then "NARhigh"
  else "NARmedium"

/-- Embedding of `classify_trg`: grades 1-2 low, everything else high. -/
def classify_trg (trg_value : ℤ) : String :=
  if 1 ≤ trg_value ∧ trg_value ≤ 2 then "TRGlow" else "TRGhigh"

/-- Embedding of `determine_nar_trg_score`. -/
def determine_nar_trg_score (nar_group trg_group : String) : ℤ :=
  if (nar_group = "NARlow" ∨ nar_group = "NARmedium") ∧ trg_group = "TRGlow" then 1
  else if (nar_group = "NARlow" ∨ nar_group = "NARmedium") ∧ trg_group = "TRGhigh" then 2
  else 3

/-- Embedding of `BETA_NARTRG = {1:0.0, 2:0.5, 3:1.0}` together with the
`.get(key, 0.0)` access in `compute_cox_points_survival`: any key outside
the dict falls back to `0.0`. -/
def BETA_NARTRG (nar_trg_score : ℤ) : ℚ :=
  if nar_trg_score = 1 then 0
  else if nar_trg_score = 2 then 1 / 2
  else if nar_trg_score = 3 then 1
  else 0

/-- Embedding of `BETA_DIFF = 0.4`. -/
def BETA_DIFF : ℚ := 4 / 10

/-- Embedding of `BETA_CA19 = 0.56`. -/
def BETA_CA19 : ℚ := 56 / 100

/-- Embedding of `LP_BASE = -0.51`. -/
def LP_BASE : ℚ := -(51 / 100)

/-- Embedding of `S0_3YR = 0.94`. -/
def S0_3YR : ℚ := 94 / 100

/-- Embedding of `S0_5YR = 0.90`. -/
def S0_5YR : ℚ := 90 / 100

/-- Embedding of the source constant `LP_MAX_SCENARIO = 1.41` (shortened
name). -/
def LP_MAX_SCEN : ℚ := 141 / 100

/-- Embedding of `POINT_SCALE = 220.0 / (LP_MAX_SCEN - LP_BASE)`. -/
def POINT_SCALE : ℚ := 220 / (LP_MAX_SCEN - LP_BASE)

/-- Python float division raises `ZeroDivisionError` on a zero divisor;
embedded as a fallible operation. -/
def float_div (x y : ℚ) : Except String ℚ :=
  if y = 0 then Except.error "ZeroDivisionError" else Except.ok (x / y)

/-- The module-level computation of `POINT_SCALE` at startup, with Python's
division semantics made explicit: it fails iff the divisor
`lp_max - lp_base` is zero. -/
def point_scale_startup (lp_max lp_base : ℚ) : Except String ℚ :=
  float_div 220 (lp_max - lp_base)

/-- The patient linear predictor accumulated in `compute_cox_points_survival`:
`BETA_NARTRG.get(score, 0.0)` plus the two optional covariate terms. -/
def lp_patient (nar_trg_score : ℤ) (diff_is_poor ca19_over_35 : Bool) : ℚ :=
  BETA_NARTRG nar_trg_score
    + (if diff_is_poor then BETA_DIFF else 0)
    + (if ca19_over_35 then BETA_CA19 else 0)

/-- `lp_rel = lp_patient - LP_BASE`. -/
def lp_rel (nar_trg_score : ℤ) (diff_is_poor ca19_over_35 : Bool) : ℚ :=
  lp_patient nar_trg_score diff_is_poor ca19_over_35 - LP_BASE

/-- The points value: `lp_rel * POINT_SCALE`, floored at `0.0`. -/
def cox_points (nar_trg_score : ℤ) (diff_is_poor ca19_over_35 : Bool) : ℚ :=
  let p := lp_rel nar_trg_score diff_is_poor ca19_over_35 * POINT_SCALE
  if p < 0 then 0 else p

/-- `surv_3y = S0_3YR ** math.exp(lp_rel)`. -/
noncomputable def surv_3y (nar_trg_score : ℤ) (diff_is_poor ca19_over_35 : Bool) : ℝ :=
  ((S0_3YR : ℚ) : ℝ) ^ Real.exp ((lp_rel nar_trg_score diff_is_poor ca19_over_35 : ℚ) : ℝ)

/-- `surv_5y = S0_5YR ** math.exp(lp_rel)`. -/
noncomputable def surv_5y (nar_trg_score : ℤ) (diff_is_poor ca19_over_35 : Bool) : ℝ :=
  ((S0_5YR : ℚ) : ℝ) ^ Real.exp ((lp_rel nar_trg_score diff_is_poor ca19_over_35 : ℚ) : ℝ)

/-- Embedding of `compute_cox_points_survival`, returning the triple
`(total_points, survival_3yr, survival_5yr)`. -/
noncomputable def compute_cox_points_survival (nar_trg_score : ℤ) (diff_is_poor ca19_over_35 : Bool) :
    ℚ × ℝ × ℝ :=
  (cox_points nar_trg_score diff_is_poor ca19_over_35,
   surv_3y nar_trg_score diff_is_poor ca19_over_35,
   surv_5y nar_trg_score diff_is_poor ca19_over_35)

/-- Modelled from the spec: the Variant B (continuous-coefficient) survival
model belongs to a second script of the repository that is not present under
`src/`.  Its linear predictor is
`LP = betaNar*compositeScore + betaDiff*(1 if diffIsPoor else 0) + betaCa19*(1 if ca19Over35 else 0)`
with `betaNar = 0.4836`, `betaDiff = 0.3897`, `betaCa19 = 0.5679`. -/
def variantB_LP (compositeScore : ℤ) (diffIsPoor ca19Over35 : Bool) : ℚ :=
  4836 / 10000 * (compositeScore : ℚ)
    + 3897 / 10000 * (if diffIsPoor then 1 else 0)
    + 5679 / 10000 * (if ca19Over35 then 1 else 0)

/-- Modelled from the spec: Variant B baseline linear predictor `-0.5138644`. -/
def variantB_LP_BASE : ℚ := -(5138644 / 10000000)

/-- Modelled from the spec: Variant B maximum-scenario linear predictor `1.410968`. -/
def variantB_LP_MAX : ℚ := 1410968 / 1000000

/-- Modelled from the spec: Variant B 3-year baseline survival `0.938052`. -/
def variantB_S0_3YR : ℚ := 938052 / 1000000

/-- Modelled from the spec: Variant B point scale `220/(LP_max - LP_base)`. -/
def variantB_POINT_SCALE : ℚ := 220 / (variantB_LP_MAX - variantB_LP_BASE)

/-- Modelled from the spec: Variant B points `(LP - LP_base) * pointScale`,
floored at 0 like Variant A. -/
def variantB_points (compositeScore : ℤ) (diffIsPoor ca19Over35 : Bool) : ℚ :=
  let p := (variantB_LP compositeScore diffIsPoor ca19Over35 - variantB_LP_BASE)
    * variantB_POINT_SCALE
  if p < 0 then 0 else p

/-- Modelled from the spec: Variant B 3-year survival `S0_3yr ^ exp(LP_rel)`. -/
noncomputable def variantB_surv_3y (compositeScore : ℤ) (diffIsPoor ca19Over35 : Bool) : ℝ :=
  ((variantB_S0_3YR : ℚ) : ℝ)
    ^ Real.exp ((variantB_LP compositeScore diffIsPoor ca19Over35 - variantB_LP_BASE : ℚ) : ℝ)

/- ------------------------------------------------------------------ -/
/- Theorems -/
/- ------------------------------------------------------------------ -/

/-- Claim C1: for every triple of integers `(cT, ypT, pN)` the NAR scorer
returns exactly `((5*pN - 3*(cT-ypT) + 12)^2) / 9.61`, this value is always
nonnegative, and `cT=3, ypT=0, pN=0` gives `9/9.61` classified Low while
`cT=1, ypT=0, pN=2` gives `361/9.61` classified High. -/
theorem calculate_nar_formula_and_bands :
    (∀ cT ypT pN : ℤ,
        calculate_nar cT ypT pN
          = (5 * (pN : ℚ) - 3 * ((cT : ℚ) - (ypT : ℚ)) + 12) ^ 2 / (961 / 100)
        ∧ 0 ≤ calculate_nar cT ypT pN)
    ∧ calculate_nar 3 0 0 = 9 / (961 / 100)
    ∧ classify_nar (calculate_nar 3 0 0) = "NARlow"
    ∧ calculate_nar 1 0 2 = 361 / (961 / 100)
    ∧ classify_nar (calculate_nar 1 0 2) = "NARhigh" := by
  refine ⟨fun cT ypT pN => ⟨rfl, ?_⟩, by norm_num [calculate_nar],
    by norm_num [calculate_nar, classify_nar], by norm_num [calculate_nar],
    by norm_num [calculate_nar, classify_nar]⟩
  unfold calculate_nar
  positivity

/-- Claim C2: the NAR classifier returns Low iff the score is `< 8.0`, High
iff it is `> 16.0`, Medium otherwise; boundaries 8.0 and 16.0 are Medium,
7.999 is Low and 16.001 is High. -/
theorem classify_nar_thresholds :
    (∀ score : ℚ,
        (classify_nar score = "NARlow" ↔ score < 8)
        ∧ (classify_nar score = "NARhigh" ↔ 16 < score)
        ∧ (classify_nar score = "NARmedium" ↔ 8 ≤ score ∧ score ≤ 16))
    ∧ classify_nar 8 = "NARmedium"
    ∧ classify_nar (7999 / 1000) = "NARlow"
    ∧ classify_nar 16 = "NARmedium"
    ∧ classify_nar (16001 / 1000) = "NARhigh" := by
  refine ⟨fun score => ?_, by norm_num [classify_nar], by norm_num [classify_nar],
    by norm_num [classify_nar], by norm_num [classify_nar]⟩
  unfold classify_nar
  split_ifs with h1 h2
  · refine ⟨by simp [h1], ?_, ?_⟩ <;> simp_all <;> linarith
  · refine ⟨?_, by simp [h2], ?_⟩ <;> simp_all <;> linarith
  · refine ⟨?_, ?_, ?_⟩ <;> simp_all <;> constructor <;> linarith

/-- Claim C3: for all 6 `(NarBand, TrgBand)` pairs the composite scorer
matches the table: (Low or Medium, Low) ↦ 1, (Low or Medium, High) ↦ 2,
(High, anything) ↦ 3, and every value lies in {1,2,3}. -/
theorem determine_nar_trg_score_table :
    determine_nar_trg_score "NARlow" "TRGlow" = 1
    ∧ determine_nar_trg_score "NARmedium" "TRGlow" = 1
    ∧ determine_nar_trg_score "NARlow" "TRGhigh" = 2
    ∧ determine_nar_trg_score "NARmedium" "TRGhigh" = 2
    ∧ determine_nar_trg_score "NARhigh" "TRGlow" = 3
    ∧ determine_nar_trg_score "NARhigh" "TRGhigh" = 3 := by
  decide

/-- Claim C7: the TRG classifier returns Low iff the grade is 1 or 2 and
High otherwise, including grades above the configured maximum and grades
at or below zero; e.g. grade 0 and grade 6 are High. -/
theorem classify_trg_bands :
    (∀ grade : ℤ,
        (classify_trg grade = "TRGlow" ↔ grade = 1 ∨ grade = 2)
        ∧ (classify_trg grade = "TRGhigh" ↔ ¬(grade = 1 ∨ grade = 2)))
    ∧ classify_trg 0 = "TRGhigh"
    ∧ classify_trg 6 = "TRGhigh" := by
  refine ⟨fun grade => ?_, by norm_num [classify_trg], by norm_num [classify_trg]⟩
  unfold classify_trg
  split_ifs with h
  · refine ⟨by simp only [true_iff]; omega, ?_⟩
    simp only [String.reduceEq, false_iff, not_not]
    omega
  · refine ⟨by simp only [String.reduceEq, false_iff]; omega, ?_⟩
    simp only [String.reduceEq, true_iff]
    omega

/-- Claim C8: the startup computation of the point scale fails exactly when
`LP_max_scenario = LP_base` (Python's division raises `ZeroDivisionError`
there, so an invalid configuration cannot get past startup), and with the
shipped constants it succeeds and yields `POINT_SCALE`. -/
theorem point_scale_startup_guard :
    (∀ lp_max lp_base : ℚ,
        ((point_scale_startup lp_max lp_base).isOk = false ↔ lp_max = lp_base))
    ∧ point_scale_startup LP_MAX_SCEN LP_BASE = Except.ok POINT_SCALE := by
  constructor
  · intro lp_max lp_base
    rcases eq_or_ne lp_max lp_base with h | h
    · simp [point_scale_startup, float_div, h, Except.isOk, Except.toBool]
    · simp [point_scale_startup, float_div, sub_eq_zero, h, Except.isOk, Except.toBool]
  · norm_num [point_scale_startup, float_div, LP_MAX_SCEN, LP_BASE, POINT_SCALE]

/-- Claim C9: a composite score outside {1,2,3} falls back to a linear
predictor contribution of 0.0 (dict `.get` default), so the prediction is
exactly that of composite score 1 with the same covariates. -/
theorem compute_cox_out_of_range_fallback (s : ℤ)
    (h1 : s ≠ 1) (h2 : s ≠ 2) (h3 : s ≠ 3) (d c : Bool) :
    compute_cox_points_survival s d c = compute_cox_points_survival 1 d c := by
  have hb : BETA_NARTRG s = BETA_NARTRG 1 := by
    simp [BETA_NARTRG, h1, h2, h3]
  unfold compute_cox_points_survival cox_points surv_3y surv_5y lp_rel lp_patient
  rw [hb]

/-- Witness for C9 at the concrete out-of-range score 7. -/
theorem compute_cox_out_of_range_fallback_witness :
    compute_cox_points_survival 7 true false = compute_cox_points_survival 1 true false :=
  compute_cox_out_of_range_fallback 7 (by decide) (by decide) (by decide) true false

/-- Claim C5: for every composite score in {1,2,3} and any covariates,
points are nonnegative and both survival probabilities lie in (0,1]. -/
theorem compute_cox_bounds (s : ℤ) (h : s = 1 ∨ s = 2 ∨ s = 3) (d c : Bool) :
    0 ≤ cox_points s d c
    ∧ 0 < surv_3y s d c ∧ surv_3y s d c ≤ 1
    ∧ 0 < surv_5y s d c ∧ surv_5y s d c ≤ 1 := by
  refine ⟨?_, ?_, ?_, ?_, ?_⟩
  · show (0:ℚ) ≤ if lp_rel s d c * POINT_SCALE < 0 then 0 else lp_rel s d c * POINT_SCALE
    split_ifs with hp
    · exact le_refl 0
    · exact le_of_not_lt hp
  · exact Real.rpow_pos_of_pos (by norm_num [S0_3YR]) _
  · exact Real.rpow_le_one (by norm_num [S0_3YR]) (by norm_num [S0_3YR]) (Real.exp_pos _).le
  · exact Real.rpow_pos_of_pos (by norm_num [S0_5YR]) _
  · exact Real.rpow_le_one (by norm_num [S0_5YR]) (by norm_num [S0_5YR]) (Real.exp_pos _).le

/-- Witness for C5 at composite score 2 with poor differentiation. -/
theorem compute_cox_bounds_witness :
    0 ≤ cox_points 2 true false
    ∧ 0 < surv_3y 2 true false ∧ surv_3y 2 true false ≤ 1
    ∧ 0 < surv_5y 2 true false ∧ surv_5y 2 true false ≤ 1 :=
  compute_cox_bounds 2 (Or.inr (Or.inl rfl)) true false

/-- Claim C6: for fixed covariates the linear predictor is monotone in the
composite score over {1,2,3}; in particular the score-3 prediction has at
least the points of, and at most the 3-year survival of, the score-1
prediction. -/
theorem compute_cox_monotone (d c : Bool) (s1 s2 : ℤ)
    (hs1 : s1 = 1 ∨ s1 = 2 ∨ s1 = 3) (hs2 : s2 = 1 ∨ s2 = 2 ∨ s2 = 3)
    (hle : s1 ≤ s2) :
    lp_patient s1 d c ≤ lp_patient s2 d c
    ∧ cox_points 1 d c ≤ cox_points 3 d c
    ∧ surv_3y 3 d c ≤ surv_3y 1 d c := by
  have hlr : ∀ t1 t2 : ℤ, (t1 = 1 ∨ t1 = 2 ∨ t1 = 3) → (t2 = 1 ∨ t2 = 2 ∨ t2 = 3) →
      t1 ≤ t2 → lp_patient t1 d c ≤ lp_patient t2 d c := by
    intro t1 t2 ht1 ht2 ht
    have hb : BETA_NARTRG t1 ≤ BETA_NARTRG t2 := by
      rcases ht1 with h | h | h <;> rcases ht2 with h' | h' | h' <;>
        subst h <;> subst h' <;> norm_num [BETA_NARTRG] <;> omega
    unfold lp_patient
    exact add_le_add (add_le_add hb le_rfl) le_rfl
  refine ⟨hlr s1 s2 hs1 hs2 hle, ?_, ?_⟩
  · cases d <;> cases c <;>
      norm_num [cox_points, lp_rel, lp_patient, BETA_NARTRG, BETA_DIFF, BETA_CA19,
        LP_BASE, POINT_SCALE, LP_MAX_SCEN]
  · unfold surv_3y
    apply Real.rpow_le_rpow_of_exponent_ge (by norm_num [S0_3YR]) (by norm_num [S0_3YR])
    apply Real.exp_le_exp.mpr
    have h13 : lp_rel 1 d c ≤ lp_rel 3 d c := by
      have := hlr 1 3 (Or.inl rfl) (Or.inr (Or.inr rfl)) (by norm_num)
      unfold lp_rel
      linarith
    exact_mod_cast h13

/-- Witness for C6 comparing composite scores 1 and 3 with no covariates. -/
theorem compute_cox_monotone_witness :
    lp_patient 1 false false ≤ lp_patient 3 false false
    ∧ cox_points 1 false false ≤ cox_points 3 false false
    ∧ surv_3y 3 false false ≤ surv_3y 1 false false :=
  compute_cox_monotone false false 1 3 (Or.inl rfl) (Or.inr (Or.inr rfl)) (by norm_num)

/-- Claim C10: the 3-year survival strictly exceeds the 5-year survival for
every composite score and every pair of covariates: both use the same
positive exponent `exp(lp_rel)` and the 3-year baseline 0.94 exceeds the
5-year baseline 0.90. -/
theorem surv_3y_gt_surv_5y (s : ℤ) (d c : Bool) :
    surv_5y s d c < surv_3y s d c := by
  unfold surv_3y surv_5y
  exact Real.rpow_lt_rpow (by norm_num [S0_5YR]) (by norm_num [S0_5YR, S0_3YR])
    (Real.exp_pos _)

/-- The Variant B scenario linear-predictor offset: `2.4084 - (-0.5138644)`. -/
theorem variantB_lp_rel_scenario :
    (variantB_LP 3 true true - variantB_LP_BASE : ℚ) = 29222644 / 10000000 := by
  norm_num [variantB_LP, variantB_LP_BASE]

/-- Upper bound on the scenario exponent: `exp 2.9222644 < 19`. -/
theorem variantB_exp_ub :
    Real.exp ((29222644 / 10000000 : ℚ) : ℝ) < 19 := by
  have hc : ((29222644 / 10000000 : ℚ) : ℝ) = 3 - 777356 / 10000000 := by
    push_cast
    norm_num
  rw [hc, Real.exp_sub]
  have he3 : Real.exp 3 < (2.7182818286 : ℝ) ^ 3 := by
    have h1 : Real.exp 3 = Real.exp 1 ^ 3 := by
      rw [← Real.exp_nat_mul]
      norm_num
    rw [h1]
    exact pow_lt_pow_left Real.exp_one_lt_d9 (Real.exp_pos 1).le (by norm_num)
  have hlb : (1 : ℝ) + 777356 / 10000000 ≤ Real.exp (777356 / 10000000) := by
    have h := Real.add_one_le_exp (777356 / 10000000 : ℝ)
    linarith
  calc Real.exp 3 / Real.exp (777356 / 10000000)
      ≤ (2.7182818286 : ℝ) ^ 3 / (1 + 777356 / 10000000) :=
        div_le_div (by positivity) he3.le (by norm_num) hlb
    _ < 19 := by norm_num

/-- Lower bound on the scenario exponent: `18 < exp 2.9222644`. -/
theorem variantB_exp_lb :
    18 < Real.exp ((29222644 / 10000000 : ℚ) : ℝ) := by
  have hc : ((29222644 / 10000000 : ℚ) : ℝ) = 3 - 777356 / 10000000 := by
    push_cast
    norm_num
  rw [hc, Real.exp_sub, div_eq_mul_inv]
  have h := Real.add_one_le_exp (-(777356 / 10000000) : ℝ)
  rw [Real.exp_neg] at h
  have he3 : (2.7182818283 : ℝ) ^ 3 < Real.exp 3 := by
    have h1 : Real.exp 3 = Real.exp 1 ^ 3 := by
      rw [← Real.exp_nat_mul]
      norm_num
    rw [h1]
    exact pow_lt_pow_left Real.exp_one_gt_d9 (by norm_num) (by norm_num)
  calc (18 : ℝ)
      < (2.7182818283 : ℝ) ^ 3 * (-(777356 / 10000000) + 1) := by norm_num
    _ ≤ Real.exp 3 * (Real.exp (777356 / 10000000))⁻¹ :=
        mul_le_mul he3.le h (by norm_num) (Real.exp_pos 3).le

/-- Lower bound on the Variant B scenario 3-year survival: above 0.29. -/
theorem variantB_surv_scenario_lb :
    (29 / 100 : ℝ) < variantB_surv_3y 3 true true := by
  unfold variantB_surv_3y
  rw [variantB_lp_rel_scenario]
  have hS : ((variantB_S0_3YR : ℚ) : ℝ) = 938052 / 1000000 := by
    norm_num [variantB_S0_3YR]
  rw [hS]
  calc (29 / 100 : ℝ)
      < (938052 / 1000000 : ℝ) ^ (19 : ℕ) := by norm_num
    _ = (938052 / 1000000 : ℝ) ^ ((19 : ℕ) : ℝ) := (Real.rpow_natCast _ 19).symm
    _ ≤ (938052 / 1000000 : ℝ) ^ Real.exp ((29222644 / 10000000 : ℚ) : ℝ) := by
        apply Real.rpow_le_rpow_of_exponent_ge (by norm_num) (by norm_num)
        have := variantB_exp_ub.le
        push_cast
        linarith

/-- Upper bound on the Variant B scenario 3-year survival: below 0.32. -/
theorem variantB_surv_scenario_ub :
    variantB_surv_3y 3 true true < (32 / 100 : ℝ) := by
  unfold variantB_surv_3y
  rw [variantB_lp_rel_scenario]
  have hS : ((variantB_S0_3YR : ℚ) : ℝ) = 938052 / 1000000 := by
    norm_num [variantB_S0_3YR]
  rw [hS]
  calc (938052 / 1000000 : ℝ) ^ Real.exp ((29222644 / 10000000 : ℚ) : ℝ)
      ≤ (938052 / 1000000 : ℝ) ^ ((18 : ℕ) : ℝ) := by
        apply Real.rpow_le_rpow_of_exponent_ge (by norm_num) (by norm_num)
        have := variantB_exp_lb.le
        push_cast
        linarith
    _ = (938052 / 1000000 : ℝ) ^ (18 : ℕ) := Real.rpow_natCast _ 18
    _ < 32 / 100 := by norm_num

/-- Claim C4 counterexample: under the spec-modelled Variant B, the scenario
cT=1, ypT=0, pN=2, TRG=4 with poor differentiation and CA19-9 over 35 yields
a 3-year survival strictly above 0.272 + 0.01, so the claimed value 0.272 is
off by more than 0.01 (the true value is about 0.305). -/
theorem variantB_scenario_surv_not_272 :
    (272 / 1000 : ℝ) + 1 / 100 < variantB_surv_3y 3 true true := by
  have h := variantB_surv_scenario_lb
  calc (272 / 1000 : ℝ) + 1 / 100 < 29 / 100 := by norm_num
    _ < variantB_surv_3y 3 true true := h

/-- Claim C4 (amended): under the spec-modelled Variant B, the scenario
cT=1, ypT=0, pN=2, TRG=4, diffIsPoor, ca19Over35 yields compositeScore 3,
LP = 2.4084, points strictly between 334 and 334.01 (so about 334.0,
exceeding the nominal 220 cap), and 3-year survival strictly between
0.29 and 0.32 (so about 0.305, not 0.272). -/
theorem variantB_scenario_amended :
    determine_nar_trg_score (classify_nar (calculate_nar 1 0 2)) (classify_trg 4) = 3
    ∧ variantB_LP 3 true true = 24084 / 10000
    ∧ 220 < variantB_points 3 true true
    ∧ 334 < variantB_points 3 true true
    ∧ variantB_points 3 true true < 33401 / 100
    ∧ (29 / 100 : ℝ) < variantB_surv_3y 3 true true
    ∧ variantB_surv_3y 3 true true < (32 / 100 : ℝ) := by
  refine ⟨?_, by norm_num [variantB_LP], ?_, ?_, ?_,
    variantB_surv_scenario_lb, variantB_surv_scenario_ub⟩
  · have h1 : classify_nar (calculate_nar 1 0 2) = "NARhigh" := by
      norm_num [calculate_nar, classify_nar]
    have h2 : classify_trg 4 = "TRGhigh" := by norm_num [classify_trg]
    rw [h1, h2]
    decide
  · norm_num [variantB_points, variantB_LP, variantB_LP_BASE, variantB_POINT_SCALE,
      variantB_LP_MAX]
  · norm_num [variantB_points, variantB_LP, variantB_LP_BASE, variantB_POINT_SCALE,
      variantB_LP_MAX]
  · norm_num [variantB_points, variantB_LP, variantB_LP_BASE, variantB_POINT_SCALE,
      variantB_LP_MAX]
